import Mathlib

/-!
Verification of the AgriFinConnect-Rwanda backend (`backend/api/`): a shallow
embedding in Lean 4 of the loan-application workflow (`views.py`), the
password-reset token model (`models.py`) and the explanation generator
(`explanations.py`), together with theorems about the claims of the
specification.

Modelling conventions:
* Python `float` / `Decimal` arithmetic is modelled with exact rationals `ℚ`.
* Database tables are lists of records; `objects.get` / `filter` become
  `List.find?` / `List.filter`.
* Dates are modelled as integer day numbers, datetimes as integer timestamps.
* Python's `round(x, 2)` (banker's rounding) is `round2` below
  (round half to even on the second decimal).
* Python truthiness of an optional numeric value (`a or b`) is mirrored by
  `pyOrQ` / `pyOrNat`: `None` and `0` both fall through.
-/

namespace AgriFin

/-- Python `int(q)` on a numeric value: truncation toward zero. -/
def pyInt (q : ℚ) : ℤ := q.num / (q.den : ℤ)

/-- Floor of a rational as an integer (computable, kernel-reducible). -/
def ratFloor (q : ℚ) : ℤ := q.num.fdiv q.den

/-- Round a rational to the nearest integer, ties to even
(the rounding used by Python's `round` and string formatting). -/
def roundHalfEven (q : ℚ) : ℤ :=
  let f : ℤ := ratFloor q
  let frac : ℚ := q - f
  if frac < 1/2 then f
  else if 1/2 < frac then f + 1
  else if f % 2 = 0 then f else f + 1

/-- Python `round(q, 2)`: round to two decimal places, ties to even. -/
def round2 (q : ℚ) : ℚ := (roundHalfEven (q * 100) : ℚ) / 100

/-- Python string slicing `s[:n]`. -/
def pyTake (n : Nat) (s : String) : String := String.mk (s.data.take n)

/-- Whitespace as stripped by Python's `str.strip()`. -/
def isPySpace (c : Char) : Bool :=
  c == ' ' || c == '\t' || c == '\n' || c == '\r' || c == '\x0b' || c == '\x0c'

/-- Python `str.strip()`: remove leading and trailing whitespace. -/
def pyStrip (s : String) : String :=
  String.mk (((s.data.dropWhile isPySpace).reverse.dropWhile isPySpace).reverse)

/-- ASCII lowering of one character (enough for the email addresses and
categorical values the endpoints handle). -/
def pyLowerChar (c : Char) : Char :=
  if 'A' ≤ c ∧ c ≤ 'Z' then Char.ofNat (c.toNat + 32) else c

/-- Python `str.lower()` (ASCII fragment). -/
def pyLower (s : String) : String := String.mk (s.data.map pyLowerChar)

/-- Does the first list occur at the head of the second? -/
def listStarts : List Char → List Char → Bool
  | [], _ => true
  | _ :: _, [] => false
  | c :: cs, d :: ds => c == d && listStarts cs ds

/-- Does the first list occur as a contiguous run inside the second? -/
def listHasRun (pat : List Char) : List Char → Bool
  | [] => listStarts pat []
  | s@(_ :: rest) => listStarts pat s || listHasRun pat rest

/-- Does `pre` occur at the start of `s`? -/
def strStarts (pre s : String) : Bool := listStarts pre.data s.data

/-- Does `pat` occur as a substring of `s`? -/
def strHasRun (pat s : String) : Bool := listHasRun pat.data s.data

/-- Decimal rendering of a natural number. -/
def natToStr (n : Nat) : String := String.mk (Nat.toDigits 10 n)

/-- Decimal rendering of an integer. -/
def intToStr (i : ℤ) : String :=
  if i < 0 then "-" ++ natToStr i.natAbs else natToStr i.natAbs

/-- Python format `"{:.0%}".format(q)`: percentage with no decimal places. -/
def formatPercent0 (q : ℚ) : String := intToStr (roundHalfEven (q * 100)) ++ "%"

/-! ## Embedding of `backend/api/explanations.py`

Payload values are the JSON-ish values the Python dict can hold at the keys
the module reads: numbers, strings, or `None`.  Python `float(s)` on a string
parses simple decimal literals; `parseFloatQ` models that for plain
`[-]digits[.digits]` forms (the endpoints only ever put numbers in numeric
keys and strings in categorical keys). -/

inductive PyVal where
  | num (q : ℚ)
  | str (s : String)
  | null
deriving DecidableEq, Repr

def Payload := List (String × PyVal)

def Payload.get? (p : Payload) (k : String) : Option PyVal :=
  (p.find? (fun kv => kv.1 == k)).map (fun kv => kv.2)

/-- Parse an optionally signed decimal literal, as Python `float(s)` would
(restricted to plain decimal forms). -/
def parseFloatQ (s : String) : Option ℚ :=
  let t := (pyStrip s).data
  let core : List Char → Option ℚ := fun cs =>
    let intPart := cs.takeWhile Char.isDigit
    let rest := cs.dropWhile Char.isDigit
    match rest with
    | [] =>
      if intPart.isEmpty then none
      else some ((String.mk intPart).toNat! : ℚ)
    | '.' :: fracs =>
      if fracs.all Char.isDigit ∧ ¬(intPart.isEmpty ∧ fracs.isEmpty) then
        some (((String.mk intPart).toNat! : ℚ) +
          ((String.mk fracs).toNat! : ℚ) / (10 ^ fracs.length : ℚ))
      else none
    | _ => none
  match t with
  | '-' :: cs => (core cs).map (fun q => -q)
  | '+' :: cs => core cs
  | cs => core cs

/-- Embedding of `explanations._num`: read a numeric field with a default;
missing keys, `None`, and unparseable values fall back to the default. -/
def numField (p : Payload) (k : String) (default : ℚ) : ℚ :=
  match p.get? k with
  | none => default
  | some (.num q) => q
  | some (.str s) => (parseFloatQ s).getD default
  | some .null => default

/-- Embedding of `explanations._str`: read a string field with a default.
For a numeric value Python would render `str(v)`; the endpoints never store
numbers under the categorical keys, so that case is rendered as the bare
integer/decimal text. -/
def strField (p : Payload) (k : String) (default : String) : String :=
  match p.get? k with
  | none => default
  | some (.str s) => pyStrip s
  | some (.num q) => pyStrip (intToStr (pyInt q))
  | some .null => default

/-- Embedding of `explanations.eligibility_reason`. -/
def eligibility_reason (payload : Payload) (approved : Bool) : String :=
  let income := numField payload "AnnualIncome" 60000
  let credit := numField payload "CreditScore" 620
  let loanAmt := numField payload "LoanAmount" 20000
  let dti := numField payload "DebtToIncomeRatio" (35/100)
  let employment := strField payload "EmploymentStatus" "Employed"
  let prevDefaults := numField payload "PreviousLoanDefaults" 0
  let bankruptcy := numField payload "BankruptcyHistory" 0
  let paymentHist := numField payload "PaymentHistory" 25
  if approved then
    let reasons : List String :=
      (if credit ≥ 650 then ["strong credit score (" ++ intToStr (pyInt credit) ++ ")."]
       else if credit ≥ 600 then ["acceptable credit score (" ++ intToStr (pyInt credit) ++ ")."]
       else []) ++
      (if income ≥ 50000 ∧ loanAmt > 0 ∧ income / 12 > loanAmt / 48 then
        ["income supports the requested loan amount and repayment."] else []) ++
      (if dti ≤ 40/100 then
        ["manageable debt-to-income ratio (" ++ formatPercent0 dti ++ ")."] else []) ++
      (if employment = "Employed" then ["stable employment status."] else []) ++
      (if prevDefaults = 0 then ["no previous loan defaults."] else []) ++
      (if bankruptcy = 0 then ["no bankruptcy history."] else []) ++
      (if paymentHist ≥ 20 then ["good payment history."] else [])
    let reasons := if reasons.isEmpty then
      ["your overall profile meets the eligibility criteria."] else reasons
    "Approved: The application was approved based on " ++ String.intercalate " " reasons
  else
    let reasons : List String :=
      (if credit < 600 then ["credit score (" ++ intToStr (pyInt credit) ++ ")."] else []) ++
      (if dti > 45/100 then
        ["high debt-to-income ratio (" ++ formatPercent0 dti ++ ")."] else []) ++
      (if prevDefaults > 0 then ["previous loan default(s)."] else []) ++
      (if bankruptcy > 0 then ["bankruptcy history."] else []) ++
      (if employment = "Unemployed" then ["employment status."] else []) ++
      (if income < 30000 ∧ loanAmt > 10000 then
        ["income may be insufficient for the requested amount."] else []) ++
      (if paymentHist < 15 then ["limited or weak payment history."] else [])
    let reasons := if reasons.isEmpty then
      ["the combined risk factors in your profile."] else reasons
    "Denied: The application was not approved primarily due to " ++
      String.intercalate ", " reasons

/-! ## Embedding of `backend/api/models.py`

Records carry the fields the verified code paths read or write.  Dates are
integer day numbers and datetimes integer timestamps; surrogate primary keys
are natural numbers. -/

inductive AppStatus where
  | pending
  | approved
  | rejected
deriving DecidableEq, Repr

/-- Row of `api_loanapplication` (`models.LoanApplication`). -/
structure LoanApplication where
  id : Nat
  userId : Nat
  age : ℤ
  annualIncome : ℚ
  creditScore : ℤ
  loanAmountRequested : ℚ
  loanDurationMonths : Nat
  employmentStatus : String
  educationLevel : String
  maritalStatus : String
  loanPurpose : String
  eligibilityApproved : Option Bool
  eligibilityReason : String
  riskScore : Option ℚ
  recommendedAmount : Option ℚ
  status : AppStatus
  reviewedBy : Option Nat
  reviewedAt : Option ℤ
  rejectionReason : String
deriving DecidableEq, Repr

/-- Row of `api_loan` (`models.Loan`). -/
structure Loan where
  id : Nat
  applicationId : Nat
  amount : ℚ
  interestRate : ℚ
  durationMonths : Nat
  monthlyPayment : ℚ
deriving DecidableEq, Repr

/-- Row of `api_repayment` (`models.Repayment`). -/
structure Repayment where
  loanId : Nat
  amount : ℚ
  dueDate : ℤ
  status : String
  paidAt : Option ℤ
deriving DecidableEq, Repr

/-- The three tables touched by the loan workflow. -/
structure DB where
  applications : List LoanApplication
  loans : List Loan
  repayments : List Repayment
deriving DecidableEq, Repr

/-- Row of `api_passwordresettoken` (`models.PasswordResetToken`).
The `token` column carries a database-level unique constraint. -/
structure ResetToken where
  userId : Nat
  token : String
  expiresAt : ℤ
deriving DecidableEq, Repr

/-- Embedding of `PasswordResetToken.create_for_user`: delete every prior
token of the user, then insert a fresh one expiring one hour (3600 s) from
now.  The fresh opaque token string (`secrets.token_urlsafe(32)`) is passed
in as `tok`. -/
def create_for_user (store : List ResetToken) (uid : Nat) (tok : String)
    (now : ℤ) : List ResetToken :=
  store.filter (fun t => t.userId ≠ uid) ++ [⟨uid, tok, now + 3600⟩]

/-- Embedding of `PasswordResetToken.get_valid_user`: look up the row with
this token and `expires_at > now`; on success delete that row (one-time use)
and return its user, otherwise return `none` and leave the store unchanged. -/
def get_valid_user (store : List ResetToken) (tok : String) (now : ℤ) :
    Option Nat × List ResetToken :=
  match store.find? (fun t => t.token == tok && decide (now < t.expiresAt)) with
  | some t => (some t.userId, store.erase t)
  | none => (none, store)

/-! ## Embedding of `views.mfi_review_application` -/

/-- Python `a or b` for an optional numeric `a`: both `None` and `0` are
falsy and fall through to `b`. -/
def pyOrQ (a : Option ℚ) (b : ℚ) : ℚ :=
  match a with
  | some x => if x = 0 then b else x
  | none => b

/-- Python `a or b` on an optional natural number: `None` and `0` fall
through. -/
def pyOrNat (a : Option Nat) (b : Nat) : Nat :=
  match a with
  | some x => if x = 0 then b else x
  | none => b

/-- Body of the review request.  `action` is `data.get('action', '')`;
the optional overrides are absent keys when `none`. -/
structure ReviewData where
  action : String
  amount : Option ℚ
  interestRate : Option ℚ
  durationMonths : Option Nat
  rejectionReason : String
deriving DecidableEq, Repr

/-- Response of the review endpoint (status code and the observable body). -/
inductive ReviewResp where
  | forbidden                                   -- 403 Microfinance access required
  | badRequest                                  -- 400 action must be approve or reject
  | notFound                                    -- 404 not found or already reviewed
  | ok (id : Nat) (st : AppStatus) (reviewedAt : ℤ) (rejectionReason : Option String)
deriving DecidableEq, Repr

/-- Effective loan amount:
`float(data.get('amount') or app.recommended_amount or app.loan_amount_requested)`. -/
def effAmount (data : ReviewData) (app : LoanApplication) : ℚ :=
  pyOrQ data.amount (pyOrQ app.recommendedAmount app.loanAmountRequested)

/-- Effective interest rate: `float(data.get('interest_rate', 0.12))`. -/
def effRate (data : ReviewData) : ℚ :=
  data.interestRate.getD (12/100)

/-- Effective duration:
`int(data.get('duration_months') or app.loan_duration_months)`. -/
def effDuration (data : ReviewData) (app : LoanApplication) : Nat :=
  pyOrNat data.durationMonths app.loanDurationMonths

/-- The divisor of the amortization formula: `(1 + r/12)^n - 1`.
The Python code divides by this whenever `duration` is truthy; when it is
zero Python raises `ZeroDivisionError` (in `ℚ` the division yields 0). -/
def amortDivisor (r : ℚ) (n : Nat) : ℚ := (1 + r/12)^n - 1

/-- The monthly payment:
`amount * (r/12) * (1+r/12)**n / ((1+r/12)**n - 1) if duration else 0`. -/
def monthlyPayment (amount r : ℚ) (n : Nat) : ℚ :=
  if n = 0 then 0
  else amount * (r/12) * (1 + r/12)^n / amortDivisor r n

/-- The repayment schedule loop:
`due = timezone.now().date(); for i in range(duration): due += timedelta(days=30); Repayment.objects.create(...)`.
`instAmount` is `Decimal(str(round(monthly, 2)))`. -/
def mkSchedule (loanId : Nat) (instAmount : ℚ) (due : ℤ) : Nat → List Repayment
  | 0 => []
  | n + 1 =>
    ⟨loanId, instAmount, due + 30, "pending", none⟩ ::
      mkSchedule loanId instAmount (due + 30) n

/-- Embedding of `views.mfi_review_application`.  `reviewerRole` is the role
resolved by `_is_microfinance`, `now` the `timezone.now()` timestamp and
`today` the date `timezone.now().date()` on which the review happens.  The
fresh Loan primary key is modelled as `db.loans.length`. -/
def mfi_review_application (db : DB) (reviewerRole : String) (reviewerId : Nat)
    (pk : Nat) (data : ReviewData) (now : ℤ) (today : ℤ) : DB × ReviewResp :=
  if reviewerRole ≠ "microfinance" then (db, .forbidden)
  else if data.action ≠ "approve" ∧ data.action ≠ "reject" then (db, .badRequest)
  else
    match db.applications.find? (fun a => a.id == pk && a.status == AppStatus.pending) with
    | none => (db, .notFound)
    | some app =>
      if data.action = "approve" then
        let amount := effAmount data app
        let rate := effRate data
        let duration := effDuration data app
        let monthly := monthlyPayment amount rate duration
        let app' := { app with
          status := .approved, rejectionReason := "",
          reviewedBy := some reviewerId, reviewedAt := some now }
        let loan : Loan := ⟨db.loans.length, app.id, amount, rate, duration, round2 monthly⟩
        let db' : DB :=
          { applications := db.applications.map (fun a => if a.id = app.id then app' else a)
            loans := db.loans ++ [loan]
            repayments := db.repayments ++ mkSchedule loan.id (round2 monthly) today duration }
        (db', .ok app.id .approved now none)
      else
        let app' := { app with
          status := .rejected,
          reviewedBy := some reviewerId, reviewedAt := some now,
          rejectionReason := pyTake 500 data.rejectionReason }
        let db' : DB :=
          { db with applications := db.applications.map (fun a => if a.id = app.id then app' else a) }
        (db', .ok app.id .rejected now (some app'.rejectionReason))

/-- Modelled from the spec (§4.1): the amount rule as the specification words
it, "amount = explicit override, else the application's recommended_amount,
else the originally requested amount (first non-null wins)".  Used only to
compare the specified rule with the implemented one. -/
def specFirstNonNull (override recommended : Option ℚ) (requested : ℚ) : ℚ :=
  match override with
  | some x => x
  | none =>
    match recommended with
    | some y => y
    | none => requested

/-! ## Embedding of the POST branch of `views.farmer_applications`

The ML collaborator (`ml_service`) is external to the verified sources: its
three scoring functions are passed in as already-evaluated results; a Python
`FileNotFoundError` is `MLError.modelUnavailable`, every other exception is
`MLError.other msg`.  The feature payload built by
`_application_to_ml_payload` merges `ml_service.DEFAULT_NUMERIC` and
`CATEGORICAL_OPTIONS`, both of which live in the external module, so the
payload is likewise passed in already built; the handler only threads it,
unchanged, to the scoring calls and to `eligibility_reason`. -/

inductive MLError where
  | modelUnavailable
  | other (msg : String)
deriving DecidableEq, Repr

/-- Body of the submission request; a field is `none` when the key is absent. -/
structure SubmitData where
  age : Option ℚ
  annualIncome : Option ℚ
  creditScore : Option ℚ
  loanAmountRequested : Option ℚ
  loanDurationMonths : Option Nat
  employmentStatus : Option String
  educationLevel : Option String
  maritalStatus : Option String
  loanPurpose : Option String
deriving DecidableEq, Repr

/-- Response of the submission endpoint. -/
inductive SubmitResp where
  | forbidden                 -- 403 Farmer access required
  | unavailable               -- 503 ML models not available
  | badRequest (msg : String) -- 400 with the exception's message
  | created (id : Nat)        -- 201 with the serialized application
deriving DecidableEq, Repr

/-- The `LoanApplication(...)` constructor call in the POST branch: defaults
for absent keys, numeric coercions, and fixed-length truncation of the
free-text fields.  `nextId` models the primary key assigned at `app.save()`. -/
def buildApplication (nextId uid : Nat) (d : SubmitData) : LoanApplication where
  id := nextId
  userId := uid
  age := pyInt (d.age.getD 35)
  annualIncome := d.annualIncome.getD 0
  creditScore := pyInt (d.creditScore.getD 600)
  loanAmountRequested := d.loanAmountRequested.getD 0
  loanDurationMonths := d.loanDurationMonths.getD 24
  employmentStatus := pyTake 30 (d.employmentStatus.getD "Self-Employed")
  educationLevel := pyTake 30 (d.educationLevel.getD "High School")
  maritalStatus := pyTake 20 (d.maritalStatus.getD "Married")
  loanPurpose := pyTake 50 (d.loanPurpose.getD "Other")
  eligibilityApproved := none
  eligibilityReason := ""
  riskScore := none
  recommendedAmount := none
  status := .pending
  reviewedBy := none
  reviewedAt := none
  rejectionReason := ""

/-- Map a scoring exception to the handler's response, as the two `except`
clauses do. -/
def mlErrorResp : MLError → SubmitResp
  | .modelUnavailable => .unavailable
  | .other msg => .badRequest msg

/-- Embedding of the POST branch of `views.farmer_applications`.  `elig`,
`riskR` and `recR` are the results the external collaborator would return
for `predict_eligibility`, `predict_risk` and `recommend_amount` on
`payload`; `recR` is only consulted when eligibility came back approved,
exactly as in the source. -/
def farmer_applications_post (db : DB) (role : String) (uid : Nat)
    (d : SubmitData) (payload : Payload)
    (elig : Except MLError Bool) (riskR : Except MLError ℚ)
    (recR : Except MLError ℚ) : DB × SubmitResp :=
  if role ≠ "farmer" then (db, .forbidden)
  else
    let app0 := buildApplication db.applications.length uid d
    match elig with
    | .error e => (db, mlErrorResp e)
    | .ok approved =>
      let app1 := { app0 with
        eligibilityApproved := some approved,
        eligibilityReason := eligibility_reason payload approved }
      match riskR with
      | .error e => (db, mlErrorResp e)
      | .ok riskVal =>
        let app2 := { app1 with riskScore := some riskVal }
        if approved then
          match recR with
          | .error e => (db, mlErrorResp e)
          | .ok recVal =>
            let app3 := { app2 with recommendedAmount := some recVal }
            ({ db with applications := db.applications ++ [app3] }, .created app3.id)
        else
          let app3 := { app2 with recommendedAmount := none }
          ({ db with applications := db.applications ++ [app3] }, .created app3.id)

/-- The composite result of the three scoring calls in their source order,
with the recommendation only requested for approved applications.  Used to
state which call (if any) failed first. -/
def scoringOutcome (elig : Except MLError Bool) (riskR recR : Except MLError ℚ) :
    Except MLError (Bool × ℚ × Option ℚ) :=
  match elig with
  | .error e => .error e
  | .ok approved =>
    match riskR with
    | .error e => .error e
    | .ok riskVal =>
      if approved then
        match recR with
        | .error e => .error e
        | .ok recVal => .ok (approved, riskVal, some recVal)
      else
        .ok (approved, riskVal, none)

/-! ## Embedding of `views.auth_forgot_password`

Only the response is modelled here (token-store mutation is
`create_for_user`, verified above); the best-effort email send is external
and cannot influence the response (`fail_silently=True`). -/

/-- A row of the auth user table, as read by the handler. -/
structure AuthUser where
  id : Nat
  username : String
deriving DecidableEq, Repr

/-- Observable response of the forgot-password endpoint: HTTP status, the
`message`/`error` text, and the `reset_url` field that is attached only when
`settings.DEBUG` is on. -/
structure ForgotResp where
  statusCode : Nat
  message : String
  resetUrl : Option String
deriving DecidableEq, Repr

/-- Embedding of `views.auth_forgot_password`.  `debug` is `settings.DEBUG`,
`frontendUrl` is `settings.PASSWORD_RESET_FRONTEND_URL` and `freshTok` the
token string `PasswordResetToken.create_for_user` would generate. -/
def auth_forgot_password (debug : Bool) (frontendUrl : String)
    (users : List AuthUser) (freshTok : String) (emailRaw : String) : ForgotResp :=
  let email := pyLower (pyStrip emailRaw)
  if email = "" then ⟨400, "Email is required.", none⟩
  else
    match users.find? (fun u => pyLower u.username == email) with
    | none => ⟨200, "If an account exists with this email, a reset link has been sent.", none⟩
    | some _ =>
      let resetUrl := frontendUrl ++ "/reset-password?token=" ++ freshTok
      ⟨200, "If an account exists with this email, a reset link has been sent.",
        if debug then some resetUrl else none⟩

/-! ## General lemmas about the repayment schedule loop -/

theorem mkSchedule_length (lid : Nat) (amt : ℚ) (due : ℤ) (n : Nat) :
    (mkSchedule lid amt due n).length = n := by
  induction n generalizing due with
  | zero => rfl
  | succ n ih => simp [mkSchedule, ih]

theorem mkSchedule_getElem (lid : Nat) (amt : ℚ) :
    ∀ (n : Nat) (due : ℤ) (i : Nat), i < n →
      (mkSchedule lid amt due n)[i]? =
        some ⟨lid, amt, due + 30 * ((i : ℤ) + 1), "pending", none⟩ := by
  intro n
  induction n with
  | zero => intro due i h; omega
  | succ n ih =>
    intro due i h
    cases i with
    | zero => simp [mkSchedule]
    | succ i =>
      have h' := ih (due + 30) i (by omega)
      simp only [mkSchedule, List.getElem?_cons_succ, h']
      congr 2
      push_cast
      ring

/-- The application row as rewritten by an approving review. -/
def approvedApp (app : LoanApplication) (rid : Nat) (now : ℤ) : LoanApplication :=
  { app with
    status := AppStatus.approved,
    rejectionReason := "",
    reviewedBy := some rid,
    reviewedAt := some now }

/-- The Loan row created by an approving review. -/
def approvalLoan (db : DB) (data : ReviewData) (app : LoanApplication) : Loan :=
  ⟨db.loans.length, app.id, effAmount data app, effRate data, effDuration data app,
    round2 (monthlyPayment (effAmount data app) (effRate data) (effDuration data app))⟩

/-- Full description of the state written by a successful approving review. -/
theorem review_approve_db (db : DB) (rid pk : Nat) (data : ReviewData)
    (now today : ℤ) (app : LoanApplication)
    (hfind : db.applications.find? (fun a => a.id == pk && a.status == AppStatus.pending) = some app)
    (hact : data.action = "approve") :
    (mfi_review_application db "microfinance" rid pk data now today).1 =
      { applications := db.applications.map (fun a => if a.id = app.id then approvedApp app rid now else a),
        loans := db.loans ++ [approvalLoan db data app],
        repayments := db.repayments ++ mkSchedule db.loans.length
          (round2 (monthlyPayment (effAmount data app) (effRate data) (effDuration data app)))
          today (effDuration data app) } := by
  simp [mfi_review_application, hfind, hact, approvedApp, approvalLoan]

theorem round2_zero : round2 0 = 0 := by with_unfolding_all decide

/-- C1: an approving review with effective duration `n > 0` creates exactly
`n` Repayment rows for the new Loan; the i-th (0-based) is due
`30 * (i + 1)` days after the approval date — so the first is due 30 days
after approval and consecutive due dates step by exactly 30 days — and each
row carries the monthly payment rounded to 2 decimals. -/
theorem claim1_repayment_schedule (db : DB) (rid pk : Nat) (data : ReviewData)
    (now today : ℤ) (app : LoanApplication)
    (hfind : db.applications.find? (fun a => a.id == pk && a.status == AppStatus.pending) = some app)
    (hact : data.action = "approve")
    (hn : 0 < effDuration data app) :
    ((mfi_review_application db "microfinance" rid pk data now today).1.repayments.drop
        db.repayments.length).length = effDuration data app ∧
    ∀ i : Nat, i < effDuration data app →
      ((mfi_review_application db "microfinance" rid pk data now today).1.repayments.drop
          db.repayments.length)[i]? =
        some ⟨db.loans.length,
          round2 (monthlyPayment (effAmount data app) (effRate data) (effDuration data app)),
          today + 30 * ((i : ℤ) + 1), "pending", none⟩ := by
  rw [review_approve_db db rid pk data now today app hfind hact]
  simp only [List.drop_left]
  exact ⟨mkSchedule_length _ _ _ _, fun i hi => mkSchedule_getElem _ _ _ _ i hi⟩

/-- Concrete pending application used by the review witnesses. -/
def appW : LoanApplication :=
  ⟨1, 7, 30, 100000, 650, 1000, 2, "Self-Employed", "High School", "Married", "Other",
    some true, "", some 40, none, AppStatus.pending, none, none, ""⟩

/-- Review request that approves with no overrides. -/
def reviewDataW : ReviewData := ⟨"approve", none, none, none, ""⟩

theorem claim1_repayment_schedule_witness :
    (([appW] : List LoanApplication).find?
        (fun a => a.id == 1 && a.status == AppStatus.pending) = some appW) ∧
    reviewDataW.action = "approve" ∧
    0 < effDuration reviewDataW appW ∧
    (((mfi_review_application ⟨[appW], [], []⟩ "microfinance" 9 1 reviewDataW 100 200).1.repayments.drop
        (List.length ([] : List Repayment))).length = effDuration reviewDataW appW ∧
    ∀ i : Nat, i < effDuration reviewDataW appW →
      ((mfi_review_application ⟨[appW], [], []⟩ "microfinance" 9 1 reviewDataW 100 200).1.repayments.drop
          (List.length ([] : List Repayment)))[i]? =
        some ⟨List.length ([] : List Loan),
          round2 (monthlyPayment (effAmount reviewDataW appW) (effRate reviewDataW)
            (effDuration reviewDataW appW)),
          200 + 30 * ((i : ℤ) + 1), "pending", none⟩) :=
  ⟨rfl, rfl, by decide,
    claim1_repayment_schedule ⟨[appW], [], []⟩ 9 1 reviewDataW 100 200 appW rfl rfl (by decide)⟩

/-- C2: with a valid action and an authorized MFI reviewer, if no application
with the requested id is currently `pending` (it is absent, or already
`approved`/`rejected`), the review responds 404 not-found and leaves every
application, loan and repayment unchanged. -/
theorem claim2_pending_guard (db : DB) (role : String) (rid pk : Nat)
    (data : ReviewData) (now today : ℤ)
    (hrole : role = "microfinance")
    (hact : data.action = "approve" ∨ data.action = "reject")
    (hnone : ∀ a ∈ db.applications, a.id = pk → a.status ≠ AppStatus.pending) :
    mfi_review_application db role rid pk data now today = (db, ReviewResp.notFound) := by
  subst hrole
  have hf : db.applications.find? (fun a => a.id == pk && a.status == AppStatus.pending) = none := by
    rw [List.find?_eq_none]
    intro a ha
    simp only [Bool.and_eq_true, beq_iff_eq, not_and]
    exact fun h1 => hnone a ha h1
  rcases hact with h | h <;> simp [mfi_review_application, h, hf]

/-- Already-reviewed application used by the C2 witness. -/
def appRejectedW : LoanApplication :=
  ⟨2, 7, 30, 100000, 650, 1000, 2, "Self-Employed", "High School", "Married", "Other",
    some false, "", some 40, none, AppStatus.rejected, some 9, some 50, "risk"⟩

theorem claim2_pending_guard_witness :
    ("microfinance" : String) = "microfinance" ∧
    (reviewDataW.action = "approve" ∨ reviewDataW.action = "reject") ∧
    (∀ a ∈ ([appRejectedW] : List LoanApplication), a.id = 2 → a.status ≠ AppStatus.pending) ∧
    mfi_review_application ⟨[appRejectedW], [], []⟩ "microfinance" 9 2 reviewDataW 100 200 =
      (⟨[appRejectedW], [], []⟩, ReviewResp.notFound) :=
  ⟨rfl, Or.inl rfl, by decide,
    claim2_pending_guard ⟨[appRejectedW], [], []⟩ "microfinance" 9 2 reviewDataW 100 200
      rfl (Or.inl rfl) (by decide)⟩

/-- C7: an approving review whose effective duration is 0 skips the
amortization formula: the created Loan has `monthly_payment = 0` and no
Repayment row is created. -/
theorem claim7_zero_duration (db : DB) (rid pk : Nat) (data : ReviewData)
    (now today : ℤ) (app : LoanApplication)
    (hfind : db.applications.find? (fun a => a.id == pk && a.status == AppStatus.pending) = some app)
    (hact : data.action = "approve")
    (hdur : effDuration data app = 0) :
    (mfi_review_application db "microfinance" rid pk data now today).1.loans =
      db.loans ++ [⟨db.loans.length, app.id, effAmount data app, effRate data, 0, 0⟩] ∧
    (mfi_review_application db "microfinance" rid pk data now today).1.repayments =
      db.repayments := by
  rw [review_approve_db db rid pk data now today app hfind hact]
  simp [approvalLoan, hdur, monthlyPayment, round2_zero, mkSchedule]

/-- Pending application requesting a zero-month duration, for the C7 witness. -/
def appZeroDurW : LoanApplication :=
  ⟨3, 7, 30, 100000, 650, 1000, 0, "Self-Employed", "High School", "Married", "Other",
    some true, "", some 40, none, AppStatus.pending, none, none, ""⟩

theorem claim7_zero_duration_witness :
    (([appZeroDurW] : List LoanApplication).find?
        (fun a => a.id == 3 && a.status == AppStatus.pending) = some appZeroDurW) ∧
    reviewDataW.action = "approve" ∧
    effDuration reviewDataW appZeroDurW = 0 ∧
    ((mfi_review_application ⟨[appZeroDurW], [], []⟩ "microfinance" 9 3 reviewDataW 100 200).1.loans =
      ([] : List Loan) ++ [⟨List.length ([] : List Loan), appZeroDurW.id,
        effAmount reviewDataW appZeroDurW, effRate reviewDataW, 0, 0⟩] ∧
    (mfi_review_application ⟨[appZeroDurW], [], []⟩ "microfinance" 9 3 reviewDataW 100 200).1.repayments =
      ([] : List Repayment)) :=
  ⟨rfl, rfl, rfl,
    claim7_zero_duration ⟨[appZeroDurW], [], []⟩ 9 3 reviewDataW 100 200 appZeroDurW rfl rfl rfl⟩

/-- Pending application with a recommended amount, used to refute C3 as
stated: the request carries an explicit (non-null) amount override of 0. -/
def appC3 : LoanApplication :=
  ⟨4, 7, 30, 100000, 650, 1000, 12, "Self-Employed", "High School", "Married", "Other",
    some true, "", some 40, some 5000, AppStatus.pending, none, none, ""⟩

/-- Review request with an explicit amount override of 0. -/
def dataC3 : ReviewData := ⟨"approve", some 0, none, none, ""⟩

/-- C3 as stated is false: with an explicit override amount of 0 (non-null)
the first non-null value is 0, yet the created Loan's amount is the
application's recommended 5000 — the code tests Python truthiness, not
nullness, so a zero override falls through. -/
theorem claim3_counterexample :
    (mfi_review_application ⟨[appC3], [], []⟩ "microfinance" 9 4 dataC3 100 200).1.loans.map
        Loan.amount = [5000] ∧
    specFirstNonNull dataC3.amount appC3.recommendedAmount appC3.loanAmountRequested = 0 ∧
    ((5000 : ℚ) ≠ 0) := by
  refine ⟨?_, rfl, by norm_num⟩
  rw [review_approve_db ⟨[appC3], [], []⟩ 9 4 dataC3 100 200 appC3 rfl rfl]
  simp [approvalLoan, effAmount, pyOrQ, appC3, dataC3]

/-- C3 amended: the created Loan's amount is the first truthy (non-null and
nonzero) of the explicit override and the application's recommended_amount,
with loan_amount_requested as the final fallback; interest_rate is 0.12 when
no override is supplied; duration_months is the application's requested
duration when no override is supplied. -/
theorem claim3_amended (db : DB) (rid pk : Nat) (data : ReviewData)
    (now today : ℤ) (app : LoanApplication)
    (hfind : db.applications.find? (fun a => a.id == pk && a.status == AppStatus.pending) = some app)
    (hact : data.action = "approve") :
    (mfi_review_application db "microfinance" rid pk data now today).1.loans.drop
        db.loans.length =
      [⟨db.loans.length, app.id, effAmount data app, effRate data, effDuration data app,
        round2 (monthlyPayment (effAmount data app) (effRate data) (effDuration data app))⟩] ∧
    (∀ x, data.amount = some x → x ≠ 0 → effAmount data app = x) ∧
    ((data.amount = none ∨ data.amount = some 0) →
      ∀ y, app.recommendedAmount = some y → y ≠ 0 → effAmount data app = y) ∧
    ((data.amount = none ∨ data.amount = some 0) →
      (app.recommendedAmount = none ∨ app.recommendedAmount = some 0) →
      effAmount data app = app.loanAmountRequested) ∧
    (data.interestRate = none → effRate data = 12/100) ∧
    (data.durationMonths = none → effDuration data app = app.loanDurationMonths) := by
  refine ⟨?_, ?_, ?_, ?_, ?_, ?_⟩
  · rw [review_approve_db db rid pk data now today app hfind hact]
    simp [List.drop_left, approvalLoan]
  · intro x hx hxe
    simp [effAmount, pyOrQ, hx, hxe]
  · intro hnull y hy hye
    rcases hnull with h | h <;> simp [effAmount, pyOrQ, h, hy, hye]
  · intro hnull hrec
    rcases hnull with h | h <;> rcases hrec with h' | h' <;>
      simp [effAmount, pyOrQ, h, h']
  · intro h
    simp [effRate, h]
  · intro h
    simp [effDuration, pyOrNat, h]

theorem claim3_amended_witness :
    (([appC3] : List LoanApplication).find?
        (fun a => a.id == 4 && a.status == AppStatus.pending) = some appC3) ∧
    dataC3.action = "approve" ∧
    ((mfi_review_application ⟨[appC3], [], []⟩ "microfinance" 9 4 dataC3 100 200).1.loans.drop
        (List.length ([] : List Loan)) =
      [⟨List.length ([] : List Loan), appC3.id, effAmount dataC3 appC3, effRate dataC3,
        effDuration dataC3 appC3,
        round2 (monthlyPayment (effAmount dataC3 appC3) (effRate dataC3)
          (effDuration dataC3 appC3))⟩] ∧
    (∀ x, dataC3.amount = some x → x ≠ 0 → effAmount dataC3 appC3 = x) ∧
    ((dataC3.amount = none ∨ dataC3.amount = some 0) →
      ∀ y, appC3.recommendedAmount = some y → y ≠ 0 → effAmount dataC3 appC3 = y) ∧
    ((dataC3.amount = none ∨ dataC3.amount = some 0) →
      (appC3.recommendedAmount = none ∨ appC3.recommendedAmount = some 0) →
      effAmount dataC3 appC3 = appC3.loanAmountRequested) ∧
    (dataC3.interestRate = none → effRate dataC3 = 12/100) ∧
    (dataC3.durationMonths = none → effDuration dataC3 appC3 = appC3.loanDurationMonths)) :=
  ⟨rfl, rfl, claim3_amended ⟨[appC3], [], []⟩ 9 4 dataC3 100 200 appC3 rfl rfl⟩

/-- C8 as stated is false: the divisor `(1 + r/12)^n - 1` of the
monthly-payment formula also vanishes for the nonzero effective interest
rate r = -24 with the positive even duration n = 2. -/
theorem claim8_counterexample :
    amortDivisor (-24) 2 = 0 ∧ ((-24 : ℚ) ≠ 0) ∧ 0 < 2 := by
  refine ⟨?_, by norm_num, by norm_num⟩
  unfold amortDivisor
  norm_num

/-- C8 amended: for positive duration `n` the divisor `(1 + r/12)^n − 1`
used by `monthlyPayment` is zero exactly when the effective interest rate is
0, or is -24 with `n` even; in particular an interest_rate override of 0
with positive duration reaches a zero divisor (the code guards only the
`duration = 0` case). -/
theorem claim8_amended (r : ℚ) (n : Nat) (hn : 0 < n) :
    (amortDivisor r n = 0 ↔ r = 0 ∨ (r = -24 ∧ Even n)) ∧
    amortDivisor 0 n = 0 := by
  have key : ∀ s : ℚ, amortDivisor s n = 0 ↔ s = 0 ∨ (s = -24 ∧ Even n) := by
    intro s
    unfold amortDivisor
    rw [sub_eq_zero, pow_eq_one_iff_of_ne_zero (Nat.pos_iff_ne_zero.mp hn)]
    have h1 : (1 + s/12 = 1) ↔ s = 0 := by constructor <;> intro h <;> linarith
    have h2 : (1 + s/12 = -1) ↔ s = -24 := by constructor <;> intro h <;> linarith
    rw [h1, h2]
  exact ⟨key r, (key 0).mpr (Or.inl rfl)⟩

theorem claim8_amended_witness :
    0 < 1 ∧ ((amortDivisor (12/100) 1 = 0 ↔ (12/100 : ℚ) = 0 ∨ ((12/100 : ℚ) = -24 ∧ Even 1)) ∧
    amortDivisor 0 1 = 0) :=
  ⟨by norm_num, claim8_amended (12/100) 1 (by norm_num)⟩

/-- The fully scored application persisted by a successful submission. -/
def scoredApp (db : DB) (uid : Nat) (d : SubmitData) (payload : Payload)
    (approved : Bool) (riskVal : ℚ) (recVal : Option ℚ) : LoanApplication :=
  { buildApplication db.applications.length uid d with
    eligibilityApproved := some approved,
    eligibilityReason := eligibility_reason payload approved,
    riskScore := some riskVal,
    recommendedAmount := recVal }

/-- C4: submission is all-or-nothing with respect to scoring.  If the
composite scoring of the three collaborator calls (in source order, the
recommendation only consulted on approval) fails, no application row is
persisted and the response is 503 for a model-unavailable failure and 400
otherwise; if it succeeds, the row is persisted with all three ML outputs
attached. -/
theorem claim4_scoring_all_or_nothing (db : DB) (role : String) (uid : Nat)
    (d : SubmitData) (payload : Payload)
    (elig : Except MLError Bool) (riskR recR : Except MLError ℚ)
    (hrole : role = "farmer") :
    (∀ e, scoringOutcome elig riskR recR = .error e →
      farmer_applications_post db role uid d payload elig riskR recR = (db, mlErrorResp e)) ∧
    (∀ approved riskVal recVal,
      scoringOutcome elig riskR recR = .ok (approved, riskVal, recVal) →
      farmer_applications_post db role uid d payload elig riskR recR =
        ({ db with applications :=
            db.applications ++ [scoredApp db uid d payload approved riskVal recVal] },
          SubmitResp.created db.applications.length)) := by
  subst hrole
  constructor
  · intro e he
    cases elig with
    | error e' =>
      simp only [scoringOutcome, Except.error.injEq] at he
      subst he
      simp [farmer_applications_post]
    | ok approved =>
      cases riskR with
      | error e' =>
        simp only [scoringOutcome, Except.error.injEq] at he
        subst he
        simp [farmer_applications_post]
      | ok riskVal =>
        cases approved with
        | false => simp [scoringOutcome] at he
        | true =>
          cases recR with
          | error e' =>
            simp only [scoringOutcome, if_true, Except.error.injEq] at he
            subst he
            simp [farmer_applications_post]
          | ok recVal => simp [scoringOutcome] at he
  · intro approved riskVal recVal he
    cases elig with
    | error e' => simp [scoringOutcome] at he
    | ok a =>
      cases riskR with
      | error e' => simp [scoringOutcome] at he
      | ok r =>
        cases a with
        | false =>
          simp only [scoringOutcome, Bool.false_eq_true, ite_false, Except.ok.injEq,
            Prod.mk.injEq] at he
          obtain ⟨h1, h2, h3⟩ := he
          subst h1; subst h2; subst h3
          simp [farmer_applications_post, scoredApp, buildApplication]
        | true =>
          cases recR with
          | error e' => simp [scoringOutcome] at he
          | ok recVal' =>
            simp only [scoringOutcome, if_true, Except.ok.injEq, Prod.mk.injEq] at he
            obtain ⟨h1, h2, h3⟩ := he
            subst h1; subst h2; subst h3
            simp [farmer_applications_post, scoredApp, buildApplication]

/-- Submission body used by the C4/C5 witnesses. -/
def submitW : SubmitData :=
  ⟨some 30, some 100000, some 650, some 1000, some 2, none, none, none, none⟩

theorem claim4_scoring_all_or_nothing_witness :
    ("farmer" : String) = "farmer" ∧
    ((∀ e, scoringOutcome (.error MLError.modelUnavailable) (.ok (50 : ℚ)) (.ok (5000 : ℚ)) = .error e →
      farmer_applications_post ⟨[], [], []⟩ "farmer" 7 submitW []
        (.error MLError.modelUnavailable) (.ok 50) (.ok 5000) = (⟨[], [], []⟩, mlErrorResp e)) ∧
    (∀ approved riskVal recVal,
      scoringOutcome (.error MLError.modelUnavailable) (.ok (50 : ℚ)) (.ok (5000 : ℚ)) =
          .ok (approved, riskVal, recVal) →
      farmer_applications_post ⟨[], [], []⟩ "farmer" 7 submitW []
          (.error MLError.modelUnavailable) (.ok 50) (.ok 5000) =
        ({ applications := [] ++ [scoredApp ⟨[], [], []⟩ 7 submitW [] approved riskVal recVal],
           loans := [], repayments := [] },
          SubmitResp.created (List.length ([] : List LoanApplication))))) :=
  ⟨rfl, claim4_scoring_all_or_nothing ⟨[], [], []⟩ "farmer" 7 submitW []
    (.error MLError.modelUnavailable) (.ok 50) (.ok 5000) rfl⟩

/-- C5: every persisted application has a recommended amount only if its
eligibility was approved — the submission endpoint preserves this store
invariant, and a submission whose eligibility prediction is denied persists
`recommended_amount = null`. -/
theorem claim5_recommended_only_if_approved (db : DB) (role : String) (uid : Nat)
    (d : SubmitData) (payload : Payload)
    (elig : Except MLError Bool) (riskR recR : Except MLError ℚ)
    (hinv : ∀ a ∈ db.applications, a.recommendedAmount ≠ none → a.eligibilityApproved = some true) :
    (∀ a ∈ (farmer_applications_post db role uid d payload elig riskR recR).1.applications,
      a.recommendedAmount ≠ none → a.eligibilityApproved = some true) ∧
    (elig = .ok false →
      ∀ a ∈ (farmer_applications_post db role uid d payload elig riskR recR).1.applications.drop
        db.applications.length, a.recommendedAmount = none) := by
  unfold farmer_applications_post
  by_cases hrole : role ≠ "farmer"
  · simp only [if_pos hrole]
    exact ⟨hinv, fun _ => by simp⟩
  · simp only [if_neg hrole]
    cases elig with
    | error e => exact ⟨hinv, fun h => by cases h⟩
    | ok approved =>
      cases riskR with
      | error e =>
        refine ⟨hinv, fun h a ha => ?_⟩
        simp at ha
      | ok riskVal =>
        cases approved with
        | false =>
          constructor
          · intro a ha hrec
            simp only [Bool.false_eq_true, ite_false, List.mem_append, List.mem_singleton] at ha
            rcases ha with ha | ha
            · exact hinv a ha hrec
            · subst ha; simp at hrec
          · intro _ a ha
            simp only [Bool.false_eq_true, ite_false, List.drop_left] at ha
            simp only [List.mem_singleton] at ha
            subst ha; rfl
        | true =>
          cases recR with
          | error e =>
            refine ⟨hinv, fun h a ha => ?_⟩
            simp at ha
          | ok recVal =>
            constructor
            · intro a ha _
              simp only [ite_true, List.mem_append, List.mem_singleton] at ha
              rcases ha with ha | ha
              · exact hinv a ha (by assumption)
              · subst ha; rfl
            · intro h; cases h

theorem claim5_recommended_only_if_approved_witness :
    (∀ a ∈ ([] : List LoanApplication), a.recommendedAmount ≠ none →
        a.eligibilityApproved = some true) ∧
    ((∀ a ∈ (farmer_applications_post ⟨[], [], []⟩ "farmer" 7 submitW []
        (.ok false) (.ok 50) (.ok 5000)).1.applications,
      a.recommendedAmount ≠ none → a.eligibilityApproved = some true) ∧
    ((.ok false : Except MLError Bool) = .ok false →
      ∀ a ∈ (farmer_applications_post ⟨[], [], []⟩ "farmer" 7 submitW []
          (.ok false) (.ok 50) (.ok 5000)).1.applications.drop
        (List.length ([] : List LoanApplication)), a.recommendedAmount = none)) :=
  ⟨by simp, claim5_recommended_only_if_approved ⟨[], [], []⟩ "farmer" 7 submitW []
    (.ok false) (.ok 50) (.ok 5000) (by simp)⟩

/-- C6: the password-reset token lifecycle.  Token strings are pairwise
distinct in the store (the `token` column is database-unique), and the fresh
token differs from the old one being examined (it is freshly generated).
Then: (1) after `create_for_user` the user's tokens are exactly the new one;
(2) any prior token of that user no longer validates; (3) a token that
validated once is deleted and never validates again; (4) a token whose
expiry is not strictly in the future never validates. -/
theorem claim6_token_lifecycle :
    (∀ (store : List ResetToken) (uid : Nat) (tok : String) (now : ℤ),
      (create_for_user store uid tok now).filter (fun t => t.userId == uid) =
        [⟨uid, tok, now + 3600⟩]) ∧
    (∀ (store : List ResetToken) (uid : Nat) (tok : String) (now now' : ℤ) (t0 : ResetToken),
      (store.map ResetToken.token).Nodup → t0 ∈ store → t0.userId = uid → t0.token ≠ tok →
      (get_valid_user (create_for_user store uid tok now) t0.token now').1 = none) ∧
    (∀ (store : List ResetToken) (tok : String) (now now' : ℤ) (u : Nat)
        (store' : List ResetToken),
      (store.map ResetToken.token).Nodup →
      get_valid_user store tok now = (some u, store') →
      (get_valid_user store' tok now').1 = none) ∧
    (∀ (store : List ResetToken) (tok : String) (now : ℤ),
      (∀ t ∈ store, t.token = tok → t.expiresAt ≤ now) →
      (get_valid_user store tok now).1 = none) := by
  refine ⟨?_, ?_, ?_, ?_⟩
  · intro store uid tok now
    have hnil : (store.filter (fun t => t.userId ≠ uid)).filter (fun t => t.userId == uid) = [] := by
      refine List.filter_eq_nil_iff.mpr ?_
      intro t ht
      have := (List.mem_filter.mp ht).2
      simp only [decide_eq_true_eq] at this
      simp [this]
    simp [create_for_user, List.filter_append, hnil]
  · intro store uid tok now now' t0 hnodup ht0 huid htok
    have hf : (create_for_user store uid tok now).find?
        (fun t => t.token == t0.token && decide (now' < t.expiresAt)) = none := by
      rw [List.find?_eq_none]
      intro t ht
      simp only [Bool.and_eq_true, beq_iff_eq, decide_eq_true_eq, not_and]
      intro heq
      rcases List.mem_append.mp ht with hmem | hmem
      · obtain ⟨hmem', hne⟩ := List.mem_filter.mp hmem
        simp only [decide_eq_true_eq] at hne
        have : t = t0 := List.inj_on_of_nodup_map hnodup hmem' ht0 heq
        exact absurd (this ▸ huid) hne
      · have : t = ⟨uid, tok, now + 3600⟩ := by simpa using hmem
        exact absurd (heq ▸ congrArg ResetToken.token this) (by simpa using htok.symm ∘ Eq.symm)
    simp [get_valid_user, hf]
  · intro store tok now now' u store' hnodup hget
    unfold get_valid_user at hget
    cases hfind : store.find? (fun t => t.token == tok && decide (now < t.expiresAt)) with
    | none => rw [hfind] at hget; cases hget
    | some t =>
      rw [hfind] at hget
      obtain ⟨-, hstore'⟩ := Prod.mk.injEq .. ▸ hget
      have htok : t.token = tok := by
        have := List.find?_some hfind
        simp only [Bool.and_eq_true, beq_iff_eq] at this
        exact this.1
      have htmem : t ∈ store := List.mem_of_find?_eq_some hfind
      have hf2 : store'.find? (fun s => s.token == tok && decide (now' < s.expiresAt)) = none := by
        rw [List.find?_eq_none]
        intro s hs
        simp only [Bool.and_eq_true, beq_iff_eq, decide_eq_true_eq, not_and]
        intro hseq
        have hsne : s ≠ t ∧ s ∈ store := by
          rw [← hstore'] at hs
          exact ((List.Nodup.of_map _ hnodup).mem_erase_iff).mp hs
        have : s = t := List.inj_on_of_nodup_map hnodup hsne.2 htmem (by rw [hseq, htok])
        exact absurd this hsne.1
      simp [get_valid_user, hf2]
  · intro store tok now hexp
    have hf : store.find? (fun t => t.token == tok && decide (now < t.expiresAt)) = none := by
      rw [List.find?_eq_none]
      intro t ht
      simp only [Bool.and_eq_true, beq_iff_eq, decide_eq_true_eq, not_and]
      intro heq
      exact not_lt.mpr (hexp t ht heq)
    simp [get_valid_user, hf]

/-- Token store used by the C6 witness. -/
def storeW : List ResetToken := [⟨1, "tokA", 1000⟩, ⟨2, "tokB", 1000⟩]

theorem claim6_token_lifecycle_witness :
    ((create_for_user storeW 1 "tokC" 0).filter (fun t => t.userId == 1) =
      [⟨1, "tokC", (0 : ℤ) + 3600⟩]) ∧
    ((storeW.map ResetToken.token).Nodup ∧ (⟨1, "tokA", 1000⟩ : ResetToken) ∈ storeW ∧
      (get_valid_user (create_for_user storeW 1 "tokC" 0) "tokA" 10).1 = none) ∧
    (get_valid_user storeW "tokA" 10 = (some 1, [⟨2, "tokB", 1000⟩]) ∧
      (get_valid_user [⟨2, "tokB", 1000⟩] "tokA" 20).1 = none) ∧
    ((∀ t ∈ ([⟨3, "tokD", 5⟩] : List ResetToken), t.token = "tokD" → t.expiresAt ≤ 5) ∧
      (get_valid_user [⟨3, "tokD", 5⟩] "tokD" 5).1 = none) :=
  ⟨claim6_token_lifecycle.1 storeW 1 "tokC" 0,
    ⟨by decide, by decide,
      claim6_token_lifecycle.2.1 storeW 1 "tokC" 0 10 ⟨1, "tokA", 1000⟩
        (by decide) (by decide) rfl (by decide)⟩,
    ⟨by decide,
      claim6_token_lifecycle.2.2.1 storeW "tokA" 10 20 1 [⟨2, "tokB", 1000⟩]
        (by decide) (by decide)⟩,
    ⟨by decide,
      claim6_token_lifecycle.2.2.2 [⟨3, "tokD", 5⟩] "tokD" 5 (by decide)⟩⟩

/-- The approved-case payload of C9. -/
def payloadApprovedW : Payload :=
  [("CreditScore", .num 700), ("DebtToIncomeRatio", .num (2/10)),
   ("EmploymentStatus", .str "Employed"), ("PreviousLoanDefaults", .num 0),
   ("BankruptcyHistory", .num 0), ("PaymentHistory", .num 30)]

/-- The denied-case payload of C9. -/
def payloadDeniedW : Payload :=
  [("CreditScore", .num 550), ("DebtToIncomeRatio", .num (1/2))]

set_option maxRecDepth 8000 in
theorem reasonApprovedW_eq :
    eligibility_reason payloadApprovedW true =
      "Approved: The application was approved based on strong credit score (700). income supports the requested loan amount and repayment. manageable debt-to-income ratio (20%). stable employment status. no previous loan defaults. no bankruptcy history. good payment history." := by
  with_unfolding_all decide

set_option maxRecDepth 8000 in
theorem reasonDeniedW_eq :
    eligibility_reason payloadDeniedW false =
      "Denied: The application was not approved primarily due to credit score (550)., high debt-to-income ratio (50%)." := by
  with_unfolding_all decide

set_option maxRecDepth 8000 in
/-- C9: on the approved payload (credit 700, DTI 0.2, employed, no defaults,
no bankruptcy, payment history 30) the reason starts with "Approved:" and
mentions the strong credit score; on the denied payload (credit 550,
DTI 0.5) it starts with "Denied:" and mentions both the credit score and the
high debt-to-income ratio. -/
theorem claim9_eligibility_reason_text :
    strStarts "Approved:" (eligibility_reason payloadApprovedW true) = true ∧
    strHasRun "strong credit score (700)" (eligibility_reason payloadApprovedW true) = true ∧
    strStarts "Denied:" (eligibility_reason payloadDeniedW false) = true ∧
    strHasRun "credit score (550)" (eligibility_reason payloadDeniedW false) = true ∧
    strHasRun "high debt-to-income ratio" (eligibility_reason payloadDeniedW false) = true := by
  rw [reasonApprovedW_eq, reasonDeniedW_eq]
  refine ⟨by decide, by decide, by decide, by decide, by decide⟩

/-- User table for the C10 counterexample: the account `a@b.com` exists. -/
def usersW : List AuthUser := [⟨1, "a@b.com"⟩]

/-- C10 as stated is false when `settings.DEBUG` is on: the same email sent
against a store that contains the account and against one that does not
produces different bodies — the existing-account response carries the
`reset_url` debug field. -/
theorem claim10_counterexample :
    pyLower (pyStrip "a@b.com") ≠ "" ∧
    (usersW.find? (fun u => pyLower u.username == pyLower (pyStrip "a@b.com"))).isSome = true ∧
    (([] : List AuthUser).find? (fun u => pyLower u.username == pyLower (pyStrip "a@b.com"))) = none ∧
    auth_forgot_password true "http://localhost:3000" usersW "tok123" "a@b.com" ≠
      auth_forgot_password true "http://localhost:3000" [] "tok123" "a@b.com" := by
  refine ⟨by decide, by decide, rfl, by decide⟩

/-- C10 amended: with `settings.DEBUG` off, two forgot-password requests for
the same (nonempty-normalizing) email are answered identically whether or
not the account exists. -/
theorem claim10_amended (frontendUrl tok1 tok2 : String)
    (users1 users2 : List AuthUser) (e : String)
    (hne : pyLower (pyStrip e) ≠ "")
    (hmatch : (users1.find? (fun u => pyLower u.username == pyLower (pyStrip e))).isSome)
    (hnomatch : users2.find? (fun u => pyLower u.username == pyLower (pyStrip e)) = none) :
    auth_forgot_password false frontendUrl users1 tok1 e =
      auth_forgot_password false frontendUrl users2 tok2 e := by
  unfold auth_forgot_password
  rw [if_neg hne, if_neg hne, hnomatch]
  cases hfind : users1.find? (fun u => pyLower u.username == pyLower (pyStrip e)) with
  | none => simp [hfind] at hmatch
  | some u => simp

theorem claim10_amended_witness :
    pyLower (pyStrip "a@b.com") ≠ "" ∧
    (usersW.find? (fun u => pyLower u.username == pyLower (pyStrip "a@b.com"))).isSome = true ∧
    (([] : List AuthUser).find? (fun u => pyLower u.username == pyLower (pyStrip "a@b.com"))) = none ∧
    auth_forgot_password false "http://localhost:3000" usersW "tok123" "a@b.com" =
      auth_forgot_password false "http://localhost:3000" [] "tok456" "a@b.com" :=
  ⟨by decide, by decide, rfl,
    claim10_amended "http://localhost:3000" "tok123" "tok456" usersW [] "a@b.com"
      (by decide) (by decide) rfl⟩

end AgriFin
